import Mathlib

/-!
# Verification of the NotebookLM notebook-registry and language pipeline

Shallow embedding of the service layer of the learnbytesting-notebooklm
repository: `src/models.py`, `src/database.py`, `src/language_utils.py`,
`src/fallback_translation.py`, `src/glossary_source.py` and
`src/notebooklm_service.py`.

External collaborators (the NotebookLM backend client, the lingua language
classifier, the regex engine used for notation stripping, and the translation
HTTP service) are modelled as oracles: structures of functions/outcomes that
parameterise each operation.  The Mongo `user_notebooks` collection is an
association list keyed by `user_key`; externally visible effects are recorded
in an event list.  Timestamps are abstract `Nat` instants.

The operative configuration is modelled: the NotebookLM library is installed
(`NOTEBOOKLM_AVAILABLE`) and the database is connected (the `db is None`
guards of `database.py` do not fire); the database driver's own operations
succeed, while every external-collaborator outcome (create, probe, source
add, delete, ask, translate, glossary) is an oracle parameter.
-/

set_option linter.unusedVariables false

namespace NotebookLM

/-- The two languages registered with the lingua detector. -/
inductive Lang where
  | en
  | es
deriving DecidableEq

/-- Types of sources that can be added to a notebook (`models.SourceType`). -/
inductive SourceType where
  | url
  | file
  | text
  | youtube
deriving DecidableEq

/-- A source added to a notebook (`models.NotebookSource`). -/
structure NotebookSource where
  source_id : Option String
  source_type : SourceType
  content : String
  title : Option String
  added_at : Nat
deriving DecidableEq

/-- Mapping between a user (email + category) and their NotebookLM notebook
(`models.UserNotebook`). -/
structure UserNotebook where
  user_key : String
  user_email : String
  main_category : String
  notebook_id : String
  notebook_name : String
  preferred_language : String
  glossary_version : String
  sources : List NotebookSource
  created_at : Nat
  updated_at : Nat
deriving DecidableEq

/-- Response from asking a question (`models.AskQuestionResponse`). -/
structure AskQuestionResponse where
  answer : String
  sources_used : List String
  conversation_id : Option String
  response_language : String
  was_translated : Bool
deriving DecidableEq

/-- `models.make_user_key`: the composite key "email-mainCategory". -/
def make_user_key (user_email main_category : String) : String :=
  user_email ++ "-" ++ main_category

/-- Split a character list at the LAST occurrence of `sep`
(Python `str.rsplit(sep, 1)` restricted to one split); `none` when `sep`
does not occur. -/
def rsplitLast (sep : Char) : List Char → Option (List Char × List Char)
  | [] => none
  | a :: rest =>
    match rsplitLast sep rest with
    | some (l, r) => some (a :: l, r)
    | none => if a = sep then some ([], rest) else none

/-- `models.parse_user_key`: split on the last hyphen; Python raises
`ValueError` when there is no hyphen, modelled as `none`. -/
def parse_user_key (user_key : String) : Option (String × String) :=
  match rsplitLast '-' user_key.data with
  | some (l, r) => some (String.mk l, String.mk r)
  | none => none

/-- The Mongo `user_notebooks` collection, as an association list keyed by
`user_key` (`database.Database`, connected state). -/
abbrev Db := List (String × UserNotebook)

/-- `database.get_user_notebook`: `find_one` on `user_key` (first match). -/
def dbGet : Db → String → Option UserNotebook
  | [], _ => none
  | (k, nb) :: rest, key => if k = key then some nb else dbGet rest key

/-- `database.save_user_notebook`: `update_one` with `upsert=True` — replace
the matched document, or insert when no document matches. -/
def dbUpsert : Db → UserNotebook → Db
  | [], nb => [(nb.user_key, nb)]
  | (k, old) :: rest, nb =>
    if k = nb.user_key then (k, nb) :: rest else (k, old) :: dbUpsert rest nb

/-- `database.delete_user_notebook`: `delete_one` on `user_key` (first match). -/
def dbDelete : Db → String → Db
  | [], _ => []
  | (k, nb) :: rest, key => if k = key then rest else (k, nb) :: dbDelete rest key

/-- Effect of `database.add_source_to_notebook` on the matched document:
`$push` the source and `$set` `updated_at` to the source's timestamp. -/
def pushSource (src : NotebookSource) (nb : UserNotebook) : UserNotebook :=
  { nb with sources := nb.sources ++ [src], updated_at := src.added_at }

/-- `database.add_source_to_notebook`: `update_one` without upsert — no-op
when no document matches the key. -/
def dbPushSource : Db → String → NotebookSource → Db
  | [], _, _ => []
  | (k, nb) :: rest, key, src =>
    if k = key then (k, pushSource src nb) :: rest
    else (k, nb) :: dbPushSource rest key src

/-- Duck-typed `chat.ask` response: the answer text, and the
`conversation_id` attribute when present (`some v`) or absent (`none`). -/
structure ChatResponse where
  answer : String
  conv : Option (Option String)
deriving DecidableEq

/-- Oracle for the external NotebookLM backend calls a single service call can
make: outcome of `notebooks.create`, of the glossary `sources.add_text`, of the
`notebooks.get` existence probe per id, of `sources.add_url`/`add_text` for
user sources, of `notebooks.delete` per id, and of `chat.ask`.  An `error`
outcome stands for the raised exception the service catches. -/
structure Backend where
  createResult : Except Unit String
  glossaryAddOk : Bool
  probeOk : String → Bool
  addSourceOk : Bool
  deleteOk : String → Bool
  askResult : Except Unit ChatResponse

/-- Externally visible effects of one service call, in order. -/
inductive Event where
  | created (notebook_id : String)
  | glossaryAttached (notebook_id : String)
  | sourcePushedRemote (notebook_id : String)
  | remoteDeleted (notebook_id : String)
  | incidentScheduled
deriving DecidableEq

/-- Result of a service call: the returned value, the database afterwards,
and the external effects performed. -/
structure Out (α : Type) where
  res : α
  db : Db
  events : List Event
deriving DecidableEq

/-- Oracle for the external pieces of `language_utils`: `clean` is the
`re.sub` pass over the chess-notation patterns followed by whitespace
collapsing (the `re` module), `detect` is `DETECTOR.detect_language_of`
(`none` when lingua reports no language), and `conf` is
`DETECTOR.compute_language_confidence`. -/
structure Lingua where
  clean : String → String
  detect : String → Option Lang
  conf : String → Lang → Rat

/-- `language_utils.detect_response_language`: empty text or cleaned text
shorter than 20 characters yields ("unknown", 0); otherwise the winning
language's code together with its confidence. -/
def detect_response_language (li : Lingua) (text : String) : String × Rat :=
  if text = "" then ("unknown", 0)
  else
    let cleaned := li.clean text
    if cleaned.length < 20 then ("unknown", 0)
    else
      match li.detect cleaned with
      | some Lang.en => ("en", li.conf cleaned Lang.en)
      | some Lang.es => ("es", li.conf cleaned Lang.es)
      | none => ("unknown", 0)

/-- The fixed confidence threshold 0.5 of `is_language_correct`, written in
normal form so that kernel evaluation does not hit `Rat` normalization. -/
def half : Rat := Rat.mk' 1 2 (by norm_num) (by norm_num)

/-- `half` is the literal 0.5 of the source. -/
theorem half_eq : half = 1 / 2 := by
  rw [half, Rat.mk'_eq_divInt, Rat.divInt_eq_div]
  norm_num

/-- `language_utils.is_language_correct`: always true for English; true on an
"unknown" detection; otherwise requires the detected language to equal the
expected one with confidence strictly above 0.5. -/
def is_language_correct (li : Lingua) (response_text expected_lang : String) : Bool :=
  if expected_lang = "en" then true
  else
    let d := detect_response_language li response_text
    if d.1 = "unknown" then true
    else decide (d.1 = expected_lang ∧ half < d.2)

/-- The `lang_names.get(code, code)` lookup of
`language_utils.build_enhanced_prompt`. -/
def langName (code : String) : String :=
  if code = "en" then "English" else if code = "es" then "Spanish" else code

/-- The Spanish entry of `LANGUAGE_INSTRUCTIONS` in
`language_utils.build_enhanced_prompt`. -/
def esInstruction : String :=
  "[IMPORTANT: Respond in Spanish. Use the chess terminology from the glossary source. Keep all chess notation (Nf3, O-O, exd5) in standard algebraic notation - do not translate moves. Translate piece names when explaining: \x27el caballo en f3\x27 but notation stays \x27Nf3\x27.]\n\n"

/-- `language_utils.build_enhanced_prompt`: English targets (and targets with
no registered instruction) return the question byte-identical; otherwise the
instruction block, optionally a context note, then the question. -/
def build_enhanced_prompt (question target_lang : String)
    (user_writes_in : Option String) : String :=
  if target_lang = "en" then question
  else
    let instruction := if target_lang = "es" then esInstruction else ""
    if instruction = "" then question
    else
      let instruction :=
        match user_writes_in with
        | none => instruction
        | some u =>
          if u ≠ "" ∧ u ≠ target_lang ∧ u ≠ "unknown" then
            instruction ++ "[Note: The user wrote in " ++ langName u ++
              " but prefers responses in " ++ langName target_lang ++ ".]\n\n"
          else instruction
      instruction ++ question

/-- Outcome of the `httpx` POST to the translation service inside
`fallback_translation.translate_response`: a 2xx response whose JSON body may
or may not contain a "translated" field, a timeout, a non-2xx status (raised
by `raise_for_status`), or any other error. -/
inductive HttpOutcome where
  | ok (translated : Option String)
  | timeout
  | statusError (code : Nat)
  | otherError
deriving DecidableEq

/-- `fallback_translation.translate_response`: no-op when the languages are
equal; on a 2xx response returns `result.get("translated", text)`; on timeout,
non-2xx status, or any other failure returns the original text.  The function
is total: every branch returns a string, mirroring the `except` clauses that
keep the Python function from raising past its boundary. -/
def translate_response (h : HttpOutcome) (text source_lang target_lang : String) : String :=
  if source_lang = target_lang then text
  else
    match h with
    | HttpOutcome.ok t => t.getD text
    | HttpOutcome.timeout => text
    | HttpOutcome.statusError _ => text
    | HttpOutcome.otherError => text

/-- The failing outcomes of the translation call (timeout, non-2xx, other). -/
def isHttpFailure : HttpOutcome → Bool
  | HttpOutcome.ok _ => false
  | HttpOutcome.timeout => true
  | HttpOutcome.statusError _ => true
  | HttpOutcome.otherError => true

/-- `glossary_source.add_glossary_source_to_notebook`: only the Spanish
glossary exists — any other language is a no-op returning false; the
`sources.add_text` call may fail, in which case the function catches the
error and returns false. -/
def add_glossary_source_to_notebook (b : Backend) (notebook_id target_lang : String) :
    Bool × List Event :=
  if target_lang ≠ "es" then (false, [])
  else if b.glossaryAddOk then (true, [Event.glossaryAttached notebook_id])
  else (false, [])

/-- The `UserNotebook` record `get_or_create_notebook` builds after a
successful `notebooks.create`: empty source list, both timestamps "now". -/
def newNotebook (user_email main_category name preferred_language nid : String)
    (now : Nat) : UserNotebook :=
  { user_key := make_user_key user_email main_category
    user_email := user_email
    main_category := main_category
    notebook_id := nid
    notebook_name := name
    preferred_language := preferred_language
    glossary_version := "1.0"
    sources := []
    created_at := now
    updated_at := now }

/-- `notebooklm_service.get_or_create_notebook`: return the existing mapping
unchanged when one is stored; otherwise create the external notebook,
optionally attach the glossary for a non-English language (its failure is
swallowed), persist and return the new mapping.  A failed create is caught
and yields `none`. -/
def get_or_create_notebook (b : Backend) (user_email main_category : String)
    (notebook_name : Option String) (preferred_language : String) (now : Nat)
    (db : Db) : Out (Option UserNotebook) :=
  let user_key := make_user_key user_email main_category
  match dbGet db user_key with
  | some existing => ⟨some existing, db, []⟩
  | none =>
    let name := notebook_name.getD
      ("Chess Learning - " ++ user_email ++ " (" ++ main_category ++ ")")
    match b.createResult with
    | Except.error _ => ⟨none, db, []⟩
    | Except.ok nid =>
      let gev :=
        if preferred_language ≠ "en" then
          (add_glossary_source_to_notebook b nid preferred_language).2
        else []
      let nb := newNotebook user_email main_category name preferred_language nid now
      ⟨some nb, dbUpsert db nb, Event.created nid :: gev⟩

/-- `notebooklm_service._ensure_valid_notebook`: when a mapping is stored,
probe the external resource; on probe failure delete the stale record and
re-run `get_or_create_notebook`; with no stored mapping, behave like
`get_or_create_notebook`. -/
def ensure_valid_notebook (b : Backend) (user_email main_category : String)
    (preferred_language : String) (now : Nat) (db : Db) : Out (Option UserNotebook) :=
  let user_key := make_user_key user_email main_category
  match dbGet db user_key with
  | some nb =>
    if b.probeOk nb.notebook_id then ⟨some nb, db, []⟩
    else
      get_or_create_notebook b user_email main_category none preferred_language now
        (dbDelete db user_key)
  | none => get_or_create_notebook b user_email main_category none preferred_language now db

/-- The try-block of `notebooklm_service.add_source`: dispatch on the source
type (`file` is unsupported and returns false before any remote call), add the
source remotely, and only on remote success append the local `NotebookSource`
record.  A remote failure is caught and yields false with the database
untouched. -/
def add_source_core (b : Backend) (user_key : String) (nb : UserNotebook)
    (source_type : SourceType) (content : String) (title : Option String)
    (now : Nat) (db : Db) (evs : List Event) : Out Bool :=
  match source_type with
  | SourceType.file => ⟨false, db, evs⟩
  | _ =>
    if b.addSourceOk then
      let src : NotebookSource :=
        { source_id := none, source_type := source_type, content := content
          title := title, added_at := now }
      ⟨true, dbPushSource db user_key src, evs ++ [Event.sourcePushedRemote nb.notebook_id]⟩
    else ⟨false, db, evs⟩

/-- `notebooklm_service.add_source`: resolve the mapping (creating it when
`auto_create_notebook` and none is stored), then run the try-block. -/
def add_source (b : Backend) (user_email main_category : String)
    (source_type : SourceType) (content : String) (title : Option String)
    (auto_create_notebook : Bool) (preferred_language : String) (now : Nat)
    (db : Db) : Out Bool :=
  let user_key := make_user_key user_email main_category
  match dbGet db user_key with
  | some nb => add_source_core b user_key nb source_type content title now db []
  | none =>
    if auto_create_notebook then
      let o := get_or_create_notebook b user_email main_category none
        preferred_language now db
      match o.res with
      | some nb => add_source_core b user_key nb source_type content title now o.db o.events
      | none => ⟨false, o.db, o.events⟩
    else ⟨false, db, []⟩

/-- The text content `notebooklm_service.add_chess_game` builds from the PGN,
title and optional analysis ("\n".join of the parts). -/
def chessGameContent (pgn : String) (game_title analysis : Option String) : String :=
  let parts := ["# Chess Game: " ++ game_title.getD "Game Analysis" ++ "\n",
                "## PGN Notation\n```\n" ++ pgn ++ "\n```\n"]
  let parts :=
    match analysis with
    | some a => parts ++ ["## Analysis\n" ++ a ++ "\n"]
    | none => parts
  String.intercalate "\n" parts

/-- `notebooklm_service.add_chess_game`: ensure a valid notebook — calling
`_ensure_valid_notebook` WITHOUT a `preferred_language` argument, so the
default "en" is used — then add the formatted game as a text source remotely
and, on remote success, record a 500-character preview locally. -/
def add_chess_game (b : Backend) (user_email main_category pgn : String)
    (game_title analysis : Option String) (now : Nat) (db : Db) : Out Bool :=
  let user_key := make_user_key user_email main_category
  let content := chessGameContent pgn game_title analysis
  let o := ensure_valid_notebook b user_email main_category "en" now db
  match o.res with
  | none => ⟨false, o.db, o.events⟩
  | some nb =>
    if b.addSourceOk then
      let src : NotebookSource :=
        { source_id := none, source_type := SourceType.text
          content := content.take 500, title := game_title, added_at := now }
      ⟨true, dbPushSource o.db user_key src,
        o.events ++ [Event.sourcePushedRemote nb.notebook_id]⟩
    else ⟨false, o.db, o.events⟩

/-- `notebooklm_service.delete_notebook`: false when no mapping is stored;
otherwise delete the external resource first and, only if that succeeded,
delete the local mapping; an external-deletion failure is caught and yields
false with the local mapping intact. -/
def delete_notebook (b : Backend) (user_email main_category : String) (db : Db) :
    Out Bool :=
  let user_key := make_user_key user_email main_category
  match dbGet db user_key with
  | none => ⟨false, db, []⟩
  | some nb =>
    if b.deleteOk nb.notebook_id then
      ⟨true, dbDelete db user_key, [Event.remoteDeleted nb.notebook_id]⟩
    else ⟨false, db, []⟩

/-- The duck-typed `conversation_id` selection of `ask_question`: the
response's attribute value when present, else the caller's argument. -/
def respConv (resp : ChatResponse) (conversation_id : Option String) : Option String :=
  match resp.conv with
  | some v => v
  | none => conversation_id

/-- The try-block of `notebooklm_service.ask_question`: detect the question
language, build the enhanced prompt, dispatch `chat.ask` (failure is caught
and yields `none`), then for a non-English target verify the answer's
language; a declared mismatch schedules an incident report (fire-and-forget:
only the `incidentScheduled` event records it — its outcome cannot reach the
returned value) and applies the fallback translation, setting
`was_translated`. -/
def askCore (b : Backend) (li : Lingua) (tr : HttpOutcome) (user_key : String)
    (nb : UserNotebook) (question preferred_language : String)
    (conversation_id : Option String) (db : Db) (evs : List Event) :
    Out (Option AskQuestionResponse) :=
  let question_lang := (detect_response_language li question).1
  let enhanced := build_enhanced_prompt question preferred_language
    (if question_lang ≠ "unknown" then some question_lang else none)
  match b.askResult with
  | Except.error _ => ⟨none, db, evs⟩
  | Except.ok resp =>
    let answer := resp.answer
    if preferred_language = "en" then
      ⟨some { answer := answer, sources_used := [],
              conversation_id := respConv resp conversation_id,
              response_language := preferred_language, was_translated := false },
        db, evs⟩
    else if is_language_correct li answer preferred_language then
      ⟨some { answer := answer, sources_used := [],
              conversation_id := respConv resp conversation_id,
              response_language := preferred_language, was_translated := false },
        db, evs⟩
    else
      let detected := (detect_response_language li answer).1
      let source_lang := if detected ≠ "unknown" then detected else "en"
      let answer2 := translate_response tr answer source_lang preferred_language
      ⟨some { answer := answer2, sources_used := [],
              conversation_id := respConv resp conversation_id,
              response_language := preferred_language, was_translated := true },
        db, evs ++ [Event.incidentScheduled]⟩

/-- `notebooklm_service.ask_question`: resolve the mapping (creating it with
the call's `preferred_language` when `auto_create_notebook` and none is
stored), then run the try-block.  `incidentFails` is the fate of the detached
incident-report task; the computation never consults it, exactly as the
Python code never awaits the created task. -/
def ask_question (b : Backend) (li : Lingua) (tr : HttpOutcome)
    (incidentFails : Bool) (user_email main_category question preferred_language : String)
    (conversation_id : Option String) (auto_create_notebook : Bool) (now : Nat)
    (db : Db) : Out (Option AskQuestionResponse) :=
  let user_key := make_user_key user_email main_category
  match dbGet db user_key with
  | some nb =>
    askCore b li tr user_key nb question preferred_language conversation_id db []
  | none =>
    if auto_create_notebook then
      let o := get_or_create_notebook b user_email main_category none
        preferred_language now db
      match o.res with
      | some nb =>
        askCore b li tr user_key nb question preferred_language conversation_id
          o.db o.events
      | none => ⟨none, o.db, o.events⟩
    else ⟨none, db, []⟩

/-! ## Interleaving model of two concurrent `get_or_create_notebook` calls

`get_or_create_notebook` suspends at every `await`: after the
`db.get_user_notebook` read and again around creation and save.  Under
asyncio's cooperative scheduling another call for the same key can run between
those suspension points.  We model each call as two atomic segments — the
read, and the remainder (create external notebook + upsert mapping when the
read found nothing) — and run an explicit schedule.  Coarser atomicity only
removes interleavings, so any race exhibited here exists in the code. -/

/-- Inputs of the two racing calls: a shared (email, category, language, time)
and the external id each call's `notebooks.create` would return. -/
structure CParams where
  user_email : String
  main_category : String
  preferred_language : String
  now : Nat
  nid1 : String
  nid2 : String

/-- The derived notebook title used when no name is supplied. -/
def cname (p : CParams) : String :=
  "Chess Learning - " ++ p.user_email ++ " (" ++ p.main_category ++ ")"

/-- Scheduler state: the database, each call's pending read result (`none`
until its read ran), the ids of externally created notebooks in order, and
each call's return value once finished. -/
structure CState where
  db : Db
  r1 : Option (Option UserNotebook)
  r2 : Option (Option UserNotebook)
  created : List String
  ret1 : Option (Option UserNotebook)
  ret2 : Option (Option UserNotebook)
deriving DecidableEq

/-- Atomic segments of the two calls. -/
inductive CStep where
  | read1
  | read2
  | finish1
  | finish2
deriving DecidableEq

/-- One scheduler step.  `readI` performs call I's `db.get_user_notebook`;
`finishI` performs the rest of call I: return the mapping its read found, or
create the external notebook (`nidI`) and upsert the new mapping.  A `finish`
before the corresponding `read` is a no-op (invalid schedule). -/
def cstep (p : CParams) : CStep → CState → CState
  | CStep.read1, s =>
    { s with r1 := some (dbGet s.db (make_user_key p.user_email p.main_category)) }
  | CStep.read2, s =>
    { s with r2 := some (dbGet s.db (make_user_key p.user_email p.main_category)) }
  | CStep.finish1, s =>
    match s.r1 with
    | some (some nb) => { s with ret1 := some (some nb) }
    | some none =>
      let nb := newNotebook p.user_email p.main_category (cname p)
        p.preferred_language p.nid1 p.now
      { s with created := s.created ++ [p.nid1], db := dbUpsert s.db nb,
               ret1 := some (some nb) }
    | none => s
  | CStep.finish2, s =>
    match s.r2 with
    | some (some nb) => { s with ret2 := some (some nb) }
    | some none =>
      let nb := newNotebook p.user_email p.main_category (cname p)
        p.preferred_language p.nid2 p.now
      { s with created := s.created ++ [p.nid2], db := dbUpsert s.db nb,
               ret2 := some (some nb) }
    | none => s

/-- Run a schedule from a state. -/
def crun (p : CParams) (sched : List CStep) (s : CState) : CState :=
  sched.foldl (fun st step => cstep p step st) s

/-- The scheduler state before any step, over an empty database. -/
def cinit : CState := ⟨[], none, none, [], none, none⟩

/-! ## Database lemmas -/

theorem dbGet_upsert_self (db : Db) (nb : UserNotebook) :
    dbGet (dbUpsert db nb) nb.user_key = some nb := by
  induction db with
  | nil => simp [dbUpsert, dbGet]
  | cons hd rest ih =>
    obtain ⟨k, old⟩ := hd
    by_cases h : k = nb.user_key
    · simp [dbUpsert, dbGet, h]
    · simp [dbUpsert, dbGet, h, ih]

theorem dbGet_eq_none_of_not_mem (db : Db) (key : String)
    (h : key ∉ db.map Prod.fst) : dbGet db key = none := by
  induction db with
  | nil => rfl
  | cons hd rest ih =>
    obtain ⟨k, nb⟩ := hd
    simp only [List.map_cons, List.mem_cons, not_or] at h
    have hk : k ≠ key := fun hkk => h.1 (hkk ▸ rfl)
    simp [dbGet, hk, ih h.2]

theorem dbGet_delete_self (db : Db) (key : String)
    (h : (db.map Prod.fst).Nodup) : dbGet (dbDelete db key) key = none := by
  induction db with
  | nil => rfl
  | cons hd rest ih =>
    obtain ⟨k, nb⟩ := hd
    simp only [List.map_cons, List.nodup_cons] at h
    by_cases hk : k = key
    · subst hk
      simpa [dbDelete] using dbGet_eq_none_of_not_mem rest k h.1
    · simp [dbDelete, dbGet, hk, ih h.2]

theorem dbGet_pushSource (db : Db) (key : String) (src : NotebookSource) :
    dbGet (dbPushSource db key src) key = (dbGet db key).map (pushSource src) := by
  induction db with
  | nil => rfl
  | cons hd rest ih =>
    obtain ⟨k, nb⟩ := hd
    by_cases hk : k = key
    · simp [dbPushSource, dbGet, hk]
    · simp [dbPushSource, dbGet, hk, ih]

/-- The sources stored under a key ([] when no mapping is stored). -/
def sourcesAt (db : Db) (key : String) : List NotebookSource :=
  match dbGet db key with
  | some nb => nb.sources
  | none => []

theorem newNotebook_user_key (user_email main_category name preferred_language nid :
    String) (now : Nat) :
    (newNotebook user_email main_category name preferred_language nid now).user_key
      = make_user_key user_email main_category := rfl

theorem newNotebook_notebook_id (user_email main_category name preferred_language nid :
    String) (now : Nat) :
    (newNotebook user_email main_category name preferred_language nid now).notebook_id
      = nid := rfl

theorem newNotebook_preferred_language (user_email main_category name
    preferred_language nid : String) (now : Nat) :
    (newNotebook user_email main_category name preferred_language nid
      now).preferred_language = preferred_language := rfl

theorem newNotebook_sources (user_email main_category name preferred_language nid :
    String) (now : Nat) :
    (newNotebook user_email main_category name preferred_language nid now).sources
      = [] := rfl

theorem dbGet_upsert_newNotebook (db : Db) (user_email main_category name
    preferred_language nid : String) (now : Nat) :
    dbGet (dbUpsert db (newNotebook user_email main_category name preferred_language
        nid now)) (make_user_key user_email main_category)
      = some (newNotebook user_email main_category name preferred_language nid now) :=
  dbGet_upsert_self db _

/-- Characterization of the creation path of `get_or_create_notebook`: with no
stored mapping and a successful external create, it returns the fresh mapping,
upserts it, and records the creation (plus the glossary event for a
non-English language whose glossary add succeeded). -/
theorem get_or_create_creates (b : Backend) (user_email main_category : String)
    (notebook_name : Option String) (preferred_language : String) (now : Nat)
    (db : Db) (nid : String)
    (hmiss : dbGet db (make_user_key user_email main_category) = none)
    (hc : b.createResult = Except.ok nid) :
    get_or_create_notebook b user_email main_category notebook_name
        preferred_language now db =
      ⟨some (newNotebook user_email main_category
          (notebook_name.getD ("Chess Learning - " ++ user_email ++ " (" ++
            main_category ++ ")")) preferred_language nid now),
        dbUpsert db (newNotebook user_email main_category
          (notebook_name.getD ("Chess Learning - " ++ user_email ++ " (" ++
            main_category ++ ")")) preferred_language nid now),
        Event.created nid ::
          (if preferred_language ≠ "en" then
            (add_glossary_source_to_notebook b nid preferred_language).2
          else [])⟩ := by
  simp [get_or_create_notebook, hmiss, hc]

/-! ## `rsplitLast` lemmas -/

theorem rsplitLast_eq_none_of_not_mem (sep : Char) (l : List Char) (h : sep ∉ l) :
    rsplitLast sep l = none := by
  induction l with
  | nil => rfl
  | cons a rest ih =>
    simp only [List.mem_cons, not_or] at h
    have ha : ¬ a = sep := fun e => h.1 e.symm
    simp [rsplitLast, ih h.2, ha]

theorem rsplitLast_append (sep : Char) (l r : List Char) (h : sep ∉ r) :
    rsplitLast sep (l ++ sep :: r) = some (l, r) := by
  induction l with
  | nil => simp [rsplitLast, rsplitLast_eq_none_of_not_mem sep r h]
  | cons a rest ih => simp [rsplitLast, ih]

/-! ## Fixtures for the witnesses -/

/-- A stored Spanish-language mapping. -/
def exNb : UserNotebook :=
  { user_key := "u@example.com-chess", user_email := "u@example.com",
    main_category := "chess", notebook_id := "orig-id", notebook_name := "Chess",
    preferred_language := "es", glossary_version := "1.0", sources := [],
    created_at := 0, updated_at := 0 }

/-- A database holding exactly the mapping `exNb`. -/
def exDb : Db := [("u@example.com-chess", exNb)]

/-- A backend answer that is (per `exLingua`) confidently English. -/
def exResp : ChatResponse := ⟨"This is clearly an English sentence.", none⟩

/-- A backend whose existence probe fails, whose source additions fail, and
whose create returns a fresh id. -/
def exBackend : Backend :=
  { createResult := Except.ok "new-id", glossaryAddOk := true,
    probeOk := fun _ => false, addSourceOk := false, deleteOk := fun _ => true,
    askResult := Except.ok exResp }

/-- A backend whose external deletion fails. -/
def exBackendNoDelete : Backend :=
  { exBackend with deleteOk := fun _ => false }

/-- A detector oracle confidently classifying everything as English. -/
def exLingua : Lingua :=
  { clean := fun s => s, detect := fun _ => some Lang.en, conf := fun _ _ => 1 }

/-- A detector oracle classifying everything as Spanish with confidence 0.4
(written in normal form as 2/5). -/
def exLinguaLow : Lingua :=
  { clean := fun s => s, detect := fun _ => some Lang.es,
    conf := fun _ _ => Rat.mk' 2 5 (by norm_num) (by norm_num) }

/-! ## C3 — `get_or_create_notebook` is idempotent on an existing mapping -/

/-- C3: when a mapping is already stored for the user_key,
`get_or_create_notebook` returns it unchanged: the database is untouched and
no external event occurs (no notebook created, no glossary provisioned) —
for every requested `preferred_language`, including one differing from the
stored mapping's. -/
theorem c3_get_or_create_idempotent (b : Backend) (user_email main_category : String)
    (notebook_name : Option String) (preferred_language : String) (now : Nat)
    (db : Db) (nb : UserNotebook)
    (h : dbGet db (make_user_key user_email main_category) = some nb) :
    get_or_create_notebook b user_email main_category notebook_name
      preferred_language now db = ⟨some nb, db, []⟩ := by
  simp [get_or_create_notebook, h]

/-- Witness for C3: a stored Spanish mapping is returned unchanged by a call
requesting a different preferred language. -/
theorem c3_get_or_create_idempotent_witness :
    dbGet exDb (make_user_key "u@example.com" "chess") = some exNb ∧
    get_or_create_notebook exBackend "u@example.com" "chess" none "en" 5 exDb =
      ⟨some exNb, exDb, []⟩ :=
  ⟨by decide,
   c3_get_or_create_idempotent exBackend "u@example.com" "chess" none "en" 5 exDb
     exNb (by decide)⟩

/-! ## C7 — `delete_notebook` contract -/

/-- C7: `delete_notebook` returns false when no mapping is stored; when one is
stored and the external deletion fails, the local mapping is kept and the call
returns false; when the external deletion succeeds, the local mapping is
deleted and the call returns true (external deletion is the recorded event,
local deletion happens only in that branch). -/
theorem c7_delete_notebook_contract (b : Backend) (user_email main_category : String)
    (db : Db) :
    (dbGet db (make_user_key user_email main_category) = none →
      delete_notebook b user_email main_category db = ⟨false, db, []⟩) ∧
    (∀ nb, dbGet db (make_user_key user_email main_category) = some nb →
      b.deleteOk nb.notebook_id = false →
      delete_notebook b user_email main_category db = ⟨false, db, []⟩) ∧
    (∀ nb, dbGet db (make_user_key user_email main_category) = some nb →
      b.deleteOk nb.notebook_id = true →
      delete_notebook b user_email main_category db =
        ⟨true, dbDelete db (make_user_key user_email main_category),
          [Event.remoteDeleted nb.notebook_id]⟩) := by
  refine ⟨fun h => ?_, fun nb h hd => ?_, fun nb h hd => ?_⟩
  · simp [delete_notebook, h]
  · simp [delete_notebook, h, hd]
  · simp [delete_notebook, h, hd]

/-- Witness for C7: the no-mapping case, the failed-external-deletion case
(local mapping kept), and the successful case (local mapping removed). -/
theorem c7_delete_notebook_contract_witness :
    (dbGet [] (make_user_key "u@example.com" "chess") = none ∧
      delete_notebook exBackend "u@example.com" "chess" [] = ⟨false, [], []⟩) ∧
    (dbGet exDb (make_user_key "u@example.com" "chess") = some exNb ∧
      exBackendNoDelete.deleteOk exNb.notebook_id = false ∧
      delete_notebook exBackendNoDelete "u@example.com" "chess" exDb =
        ⟨false, exDb, []⟩) ∧
    (exBackend.deleteOk exNb.notebook_id = true ∧
      delete_notebook exBackend "u@example.com" "chess" exDb =
        ⟨true, dbDelete exDb (make_user_key "u@example.com" "chess"),
          [Event.remoteDeleted "orig-id"]⟩) :=
  ⟨⟨by decide, (c7_delete_notebook_contract exBackend "u@example.com" "chess" []).1
      (by decide)⟩,
   ⟨by decide, by decide,
    (c7_delete_notebook_contract exBackendNoDelete "u@example.com" "chess" exDb).2.1
      exNb (by decide) (by decide)⟩,
   ⟨by decide,
    (c7_delete_notebook_contract exBackend "u@example.com" "chess" exDb).2.2
      exNb (by decide) (by decide)⟩⟩

/-! ## C8 — translation fails open -/

/-- C8: for distinct source and target languages, every failing outcome of the
translation call (timeout, non-2xx status, any other error) makes
`translate_response` return the original text unchanged; the function is total,
so no exception escapes its boundary. -/
theorem c8_translate_fail_open (h : HttpOutcome) (text source_lang target_lang : String)
    (hne : source_lang ≠ target_lang) (hfail : isHttpFailure h = true) :
    translate_response h text source_lang target_lang = text := by
  cases h with
  | ok t => simp [isHttpFailure] at hfail
  | timeout => simp [translate_response, hne]
  | statusError c => simp [translate_response, hne]
  | otherError => simp [translate_response, hne]

/-- Witness for C8, the spec's own example: a simulated timeout on
`translate("Hello", "en", "es")` returns "Hello" unchanged. -/
theorem c8_translate_fail_open_witness :
    ("en" : String) ≠ "es" ∧ isHttpFailure HttpOutcome.timeout = true ∧
    translate_response HttpOutcome.timeout "Hello" "en" "es" = "Hello" :=
  ⟨by decide, by decide,
   c8_translate_fail_open HttpOutcome.timeout "Hello" "en" "es" (by decide) (by decide)⟩

/-! ## C9 — user_key round trip -/

/-- C9 counterexample: the round trip is NOT the identity for every input —
a `main_category` containing the separator is split wrongly:
`parse_user_key (make_user_key "a" "b-c")` yields ("a-b", "c"), not
("a", "b-c"). -/
theorem c9_counterexample :
    parse_user_key (make_user_key "a" "b-c") = some ("a-b", "c") ∧
    parse_user_key (make_user_key "a" "b-c") ≠ some ("a", "b-c") :=
  ⟨by decide, by decide⟩

/-- C9 amended: for every `user_email` (hyphens allowed) and every
`main_category` that does not contain the separator, splitting on the last
hyphen inverts the composite-key constructor. -/
theorem c9_roundtrip (user_email main_category : String)
    (h : '-' ∉ main_category.data) :
    parse_user_key (make_user_key user_email main_category) =
      some (user_email, main_category) := by
  unfold parse_user_key make_user_key
  rw [String.data_append, String.data_append]
  have h1 : ("-" : String).data = ['-'] := rfl
  rw [h1, List.append_assoc, List.singleton_append,
    rsplitLast_append '-' user_email.data main_category.data h]

/-- Witness for C9 amended: an email containing a hyphen still round-trips
when the category has none. -/
theorem c9_roundtrip_witness :
    ('-' ∉ ("chess" : String).data) ∧
    parse_user_key (make_user_key "john-doe@x.com" "chess") =
      some ("john-doe@x.com", "chess") :=
  ⟨by decide, c9_roundtrip "john-doe@x.com" "chess" (by decide)⟩

/-! ## C2 — what "fails open" really covers -/

/-- A backend whose `chat.ask` answers the text `exLinguaLow` classifies as
Spanish with confidence 0.4. -/
def exBackendLow : Backend :=
  { exBackend with askResult := Except.ok ⟨"aaaaaaaaaaaaaaaaaaaa", none⟩ }

/-- C2 counterexample: a detector report with a named language and confidence
0.4 (≤ 0.5) does NOT fail open: `is_language_correct` returns false even
though the detected language equals the expected one, and the pipeline then
applies the translation fallback and schedules an incident — contradicting
"declares no mismatch, no incident report, no translation fallback". -/
theorem c2_counterexample :
    ("es" : String) ≠ "en" ∧
    (detect_response_language exLinguaLow "aaaaaaaaaaaaaaaaaaaa").1 = "es" ∧
    (detect_response_language exLinguaLow "aaaaaaaaaaaaaaaaaaaa").2 ≤ half ∧
    is_language_correct exLinguaLow "aaaaaaaaaaaaaaaaaaaa" "es" = false ∧
    (∃ r, (ask_question exBackendLow exLinguaLow HttpOutcome.timeout false
        "u@example.com" "chess" "hola" "es" none true 0 exDb).res = some r ∧
      r.was_translated = true) ∧
    Event.incidentScheduled ∈
      (ask_question exBackendLow exLinguaLow HttpOutcome.timeout false
        "u@example.com" "chess" "hola" "es" none true 0 exDb).events :=
  ⟨by decide, by decide, by decide, by decide,
   ⟨{ answer := "aaaaaaaaaaaaaaaaaaaa", sources_used := [], conversation_id := none,
      response_language := "es", was_translated := true }, by decide, by decide⟩,
   by decide⟩

/-- C2 amended: for a non-English expected language, verification fails open
exactly on an "unknown" detection; otherwise `is_language_correct` is true
precisely when the detected language equals the expected one WITH confidence
strictly above 0.5 — a named-language report with confidence ≤ 0.5 is
declared a mismatch, not passed unchanged. -/
theorem c2_verification_characterization (li : Lingua) (text expected_lang : String)
    (h : expected_lang ≠ "en") :
    (is_language_correct li text expected_lang = true ↔
      (detect_response_language li text).1 = "unknown" ∨
        ((detect_response_language li text).1 = expected_lang ∧
          half < (detect_response_language li text).2)) ∧
    ((detect_response_language li text).1 = "unknown" →
      is_language_correct li text expected_lang = true) := by
  constructor
  · unfold is_language_correct
    rw [if_neg h]
    by_cases hu : (detect_response_language li text).1 = "unknown"
    · simp [hu]
    · simp [hu, decide_eq_true_iff]
  · intro hu
    unfold is_language_correct
    rw [if_neg h]
    simp [hu]

/-- Witness for C2 amended, at a confidently-English detection with expected
language Spanish. -/
theorem c2_verification_characterization_witness :
    ("es" : String) ≠ "en" ∧
    ((is_language_correct exLingua "This is clearly an English sentence." "es" = true ↔
      (detect_response_language exLingua "This is clearly an English sentence.").1 =
          "unknown" ∨
        ((detect_response_language exLingua "This is clearly an English sentence.").1 =
            "es" ∧
          half <
            (detect_response_language exLingua "This is clearly an English sentence.").2)) ∧
    ((detect_response_language exLingua "This is clearly an English sentence.").1 =
        "unknown" →
      is_language_correct exLingua "This is clearly an English sentence." "es" = true)) :=
  ⟨by decide,
   c2_verification_characterization exLingua "This is clearly an English sentence." "es"
     (by decide)⟩

/-! ## C4 — stale mappings are deleted and recreated -/

/-- C4: when the stored mapping's external probe fails and the backend's
create returns a fresh id, `_ensure_valid_notebook` deletes the stale record
and provisions a replacement through `get_or_create_notebook`: the result is
a mapping under the same `user_key` whose `notebook_id` is the newly created
one, different from the original, and it is what the database now stores. -/
theorem c4_ensure_valid_recreates (b : Backend)
    (user_email main_category preferred_language : String) (now : Nat) (db : Db)
    (nb : UserNotebook) (nid : String)
    (hget : dbGet db (make_user_key user_email main_category) = some nb)
    (hnodup : (db.map Prod.fst).Nodup)
    (hprobe : b.probeOk nb.notebook_id = false)
    (hcreate : b.createResult = Except.ok nid)
    (hne : nid ≠ nb.notebook_id) :
    ∃ nb',
      (ensure_valid_notebook b user_email main_category preferred_language now db).res
        = some nb' ∧
      nb'.user_key = make_user_key user_email main_category ∧
      nb'.notebook_id = nid ∧ nb'.notebook_id ≠ nb.notebook_id ∧
      dbGet (ensure_valid_notebook b user_email main_category preferred_language now
          db).db (make_user_key user_email main_category) = some nb' ∧
      Event.created nid ∈
        (ensure_valid_notebook b user_email main_category preferred_language now
          db).events := by
  have hdel : dbGet (dbDelete db (make_user_key user_email main_category))
      (make_user_key user_email main_category) = none :=
    dbGet_delete_self db _ hnodup
  have hred : ensure_valid_notebook b user_email main_category preferred_language now db
      = get_or_create_notebook b user_email main_category none preferred_language now
          (dbDelete db (make_user_key user_email main_category)) := by
    simp [ensure_valid_notebook, hget, hprobe]
  rw [hred, get_or_create_creates b user_email main_category none preferred_language
    now (dbDelete db (make_user_key user_email main_category)) nid hdel hcreate]
  exact ⟨newNotebook user_email main_category
      ("Chess Learning - " ++ user_email ++ " (" ++ main_category ++ ")")
      preferred_language nid now,
    rfl, rfl, rfl, hne,
    dbGet_upsert_newNotebook (dbDelete db (make_user_key user_email main_category))
      user_email main_category _ preferred_language nid now,
    List.mem_cons_self _ _⟩

/-- Witness for C4: the stored mapping `exNb` ("orig-id") fails its probe and
is replaced by a mapping with the fresh id "new-id" under the same key. -/
theorem c4_ensure_valid_recreates_witness :
    (dbGet exDb (make_user_key "u@example.com" "chess") = some exNb ∧
      (exDb.map Prod.fst).Nodup ∧
      exBackend.probeOk exNb.notebook_id = false ∧
      exBackend.createResult = Except.ok "new-id" ∧
      ("new-id" : String) ≠ exNb.notebook_id) ∧
    (∃ nb',
      (ensure_valid_notebook exBackend "u@example.com" "chess" "es" 7 exDb).res
        = some nb' ∧
      nb'.user_key = make_user_key "u@example.com" "chess" ∧
      nb'.notebook_id = "new-id" ∧ nb'.notebook_id ≠ exNb.notebook_id ∧
      dbGet (ensure_valid_notebook exBackend "u@example.com" "chess" "es" 7 exDb).db
        (make_user_key "u@example.com" "chess") = some nb' ∧
      Event.created "new-id" ∈
        (ensure_valid_notebook exBackend "u@example.com" "chess" "es" 7 exDb).events) :=
  ⟨⟨by decide, by decide, by decide, rfl, by decide⟩,
   c4_ensure_valid_recreates exBackend "u@example.com" "chess" "es" 7 exDb exNb
     "new-id" (by decide) (by decide) (by decide) rfl (by decide)⟩

/-! ## C5 — creation is NOT serialized per key -/

/-- C5 counterexample: over an empty database, the interleaving in which both
calls perform their `db.get_user_notebook` read before either proceeds to
create makes each call create an external notebook: two external resources
for one `user_key`, refuting "exactly one external notebook resource". -/
theorem c5_counterexample :
    (crun ⟨"u@example.com", "chess", "en", 0, "nb-1", "nb-2"⟩
      [CStep.read1, CStep.read2, CStep.finish1, CStep.finish2] cinit).created =
      ["nb-1", "nb-2"] ∧
    (crun ⟨"u@example.com", "chess", "en", 0, "nb-1", "nb-2"⟩
      [CStep.read1, CStep.read2, CStep.finish1, CStep.finish2] cinit).created.length
      ≠ 1 :=
  ⟨by decide, by decide⟩

/-- C5 amended: `get_or_create_notebook` has no per-key serialization — under
the read-read-create-create interleaving both calls create an external
resource, and the persistence layer's upsert is last-write-wins: one local
mapping remains (the second writer's) while two external notebooks exist.
Only a schedule in which one call completes before the other reads (the
serialized one) creates a single resource. -/
theorem c5_race_two_creations (p : CParams) :
    (crun p [CStep.read1, CStep.read2, CStep.finish1, CStep.finish2] cinit).created =
      [p.nid1, p.nid2] ∧
    (crun p [CStep.read1, CStep.read2, CStep.finish1, CStep.finish2] cinit).db =
      [(make_user_key p.user_email p.main_category,
        newNotebook p.user_email p.main_category (cname p) p.preferred_language
          p.nid2 p.now)] ∧
    (crun p [CStep.read1, CStep.finish1, CStep.read2, CStep.finish2] cinit).created =
      [p.nid1] := by
  refine ⟨?_, ?_, ?_⟩ <;>
    simp [crun, cstep, cinit, dbGet, dbUpsert, newNotebook]

/-! ## C6 — no local source record on remote failure -/

/-- C6: when the external call that adds the source fails, `add_source`
returns false and appends no local `NotebookSource`: the sources stored under
the user_key are exactly what they were before the call (still empty when the
call had auto-created the notebook). -/
theorem c6_add_source_no_append_on_remote_failure (b : Backend)
    (user_email main_category : String) (source_type : SourceType) (content : String)
    (title : Option String) (auto_create_notebook : Bool) (preferred_language : String)
    (now : Nat) (db : Db) (hfail : b.addSourceOk = false) :
    (add_source b user_email main_category source_type content title
        auto_create_notebook preferred_language now db).res = false ∧
    sourcesAt (add_source b user_email main_category source_type content title
        auto_create_notebook preferred_language now db).db
        (make_user_key user_email main_category) =
      sourcesAt db (make_user_key user_email main_category) := by
  cases hdb : dbGet db (make_user_key user_email main_category) with
  | some nb =>
    cases source_type <;> simp [add_source, add_source_core, hdb, hfail, sourcesAt]
  | none =>
    cases auto_create_notebook with
    | false => simp [add_source, hdb, sourcesAt]
    | true =>
      cases hc : b.createResult with
      | error e => simp [add_source, get_or_create_notebook, hdb, hc, sourcesAt]
      | ok nid =>
        have hcr := get_or_create_creates b user_email main_category none
          preferred_language now db nid hdb hc
        have hup := dbGet_upsert_newNotebook db user_email main_category
          ("Chess Learning - " ++ user_email ++ " (" ++ main_category ++ ")")
          preferred_language nid now
        cases source_type <;>
          simp [add_source, add_source_core, hdb, hcr, hfail, sourcesAt, hup,
            newNotebook_sources]

/-- Witness for C6: with an existing mapping and a failing remote add, the
call returns false and the stored sources are unchanged. -/
theorem c6_add_source_no_append_on_remote_failure_witness :
    exBackend.addSourceOk = false ∧
    ((add_source exBackend "u@example.com" "chess" SourceType.text "hi" none true
        "en" 3 exDb).res = false ∧
    sourcesAt (add_source exBackend "u@example.com" "chess" SourceType.text "hi" none
        true "en" 3 exDb).db (make_user_key "u@example.com" "chess") =
      sourcesAt exDb (make_user_key "u@example.com" "chess")) :=
  ⟨by decide,
   c6_add_source_no_append_on_remote_failure exBackend "u@example.com" "chess"
     SourceType.text "hi" none true "en" 3 exDb (by decide)⟩

/-! ## C10 — stale recreation through `add_chess_game` loses the language -/

/-- C10: `add_chess_game` calls `_ensure_valid_notebook` without a
`preferred_language` argument, so a stale mapping — even one stored with
preferred_language "es" — is recreated with the default "en" and no glossary
source is provisioned. -/
theorem c10_stale_recreation_defaults_to_english (b : Backend)
    (user_email main_category pgn : String) (game_title analysis : Option String)
    (now : Nat) (db : Db) (nb : UserNotebook) (nid : String)
    (hget : dbGet db (make_user_key user_email main_category) = some nb)
    (hnodup : (db.map Prod.fst).Nodup)
    (hlang : nb.preferred_language = "es")
    (hprobe : b.probeOk nb.notebook_id = false)
    (hcreate : b.createResult = Except.ok nid) :
    (∃ nb', dbGet (add_chess_game b user_email main_category pgn game_title analysis
          now db).db (make_user_key user_email main_category) = some nb' ∧
      nb'.preferred_language = "en" ∧ nb'.notebook_id = nid) ∧
    (∀ i, Event.glossaryAttached i ∉
      (add_chess_game b user_email main_category pgn game_title analysis now db).events)
    := by
  have hdel : dbGet (dbDelete db (make_user_key user_email main_category))
      (make_user_key user_email main_category) = none :=
    dbGet_delete_self db _ hnodup
  have hred : ensure_valid_notebook b user_email main_category "en" now db
      = get_or_create_notebook b user_email main_category none "en" now
          (dbDelete db (make_user_key user_email main_category)) := by
    simp [ensure_valid_notebook, hget, hprobe]
  have hcr := get_or_create_creates b user_email main_category none "en" now
    (dbDelete db (make_user_key user_email main_category)) nid hdel hcreate
  have hup := dbGet_upsert_newNotebook
    (dbDelete db (make_user_key user_email main_category)) user_email main_category
    ("Chess Learning - " ++ user_email ++ " (" ++ main_category ++ ")") "en" nid now
  have hpush := dbGet_pushSource
    (dbUpsert (dbDelete db (make_user_key user_email main_category))
      (newNotebook user_email main_category
        ("Chess Learning - " ++ user_email ++ " (" ++ main_category ++ ")") "en" nid
        now))
    (make_user_key user_email main_category)
    { source_id := none, source_type := SourceType.text
      content := (chessGameContent pgn game_title analysis).take 500
      title := game_title, added_at := now }
  cases haso : b.addSourceOk with
  | false =>
    refine ⟨⟨newNotebook user_email main_category
      ("Chess Learning - " ++ user_email ++ " (" ++ main_category ++ ")") "en" nid now,
      ?_, rfl, rfl⟩, ?_⟩ <;>
      simp [add_chess_game, hred, hcr, haso, hup]
  | true =>
    refine ⟨⟨pushSource
      { source_id := none, source_type := SourceType.text
        content := (chessGameContent pgn game_title analysis).take 500
        title := game_title, added_at := now }
      (newNotebook user_email main_category
        ("Chess Learning - " ++ user_email ++ " (" ++ main_category ++ ")") "en" nid
        now), ?_, rfl, rfl⟩, ?_⟩ <;>
      simp [add_chess_game, hred, hcr, haso, hup, hpush]

/-- Witness for C10: the stored Spanish mapping `exNb` is stale; after
`add_chess_game` the stored replacement has preferred_language "en" and no
glossary was attached. -/
theorem c10_stale_recreation_defaults_to_english_witness :
    (dbGet exDb (make_user_key "u@example.com" "chess") = some exNb ∧
      (exDb.map Prod.fst).Nodup ∧ exNb.preferred_language = "es" ∧
      exBackend.probeOk exNb.notebook_id = false ∧
      exBackend.createResult = Except.ok "new-id") ∧
    ((∃ nb', dbGet (add_chess_game exBackend "u@example.com" "chess" "1. e4 e5" none
          none 9 exDb).db (make_user_key "u@example.com" "chess") = some nb' ∧
      nb'.preferred_language = "en" ∧ nb'.notebook_id = "new-id") ∧
    (∀ i, Event.glossaryAttached i ∉
      (add_chess_game exBackend "u@example.com" "chess" "1. e4 e5" none none 9
        exDb).events)) :=
  ⟨⟨by decide, by decide, by decide, by decide, rfl⟩,
   c10_stale_recreation_defaults_to_english exBackend "u@example.com" "chess"
     "1. e4 e5" none none 9 exDb exNb "new-id" (by decide) (by decide) (by decide)
     (by decide) rfl⟩

/-! ## C1 — wrong-language answers: what the pipeline guarantees -/

/-- C1 counterexample: a confidently wrong-language answer with a FAILING
translation call yields `was_translated = true` but an answer EQUAL to the raw
backend answer (`translate_response` fails open), refuting "an answer that
differs from the raw backend answer". -/
theorem c1_counterexample :
    ("es" : String) ≠ "en" ∧
    is_language_correct exLingua exResp.answer "es" = false ∧
    (ask_question exBackend exLingua HttpOutcome.timeout false "u@example.com" "chess"
        "como juego la apertura?" "es" none true 0 exDb).res =
      some { answer := exResp.answer, sources_used := [], conversation_id := none,
             response_language := "es", was_translated := true } :=
  ⟨by decide, by decide, by decide⟩

/-- C1 amended: for a non-English target whose raw answer is declared in the
wrong language, the result has `was_translated = true` and its answer is the
fallback translation of the raw answer (so it differs from the raw answer
whenever the translation call succeeds with a different text for a distinct
source language); an incident report is scheduled, and the returned result is
independent of the incident report's fate. -/
theorem c1_translation_applied (b : Backend) (li : Lingua) (tr : HttpOutcome)
    (incidentFails : Bool)
    (user_email main_category question preferred_language : String)
    (conversation_id : Option String) (auto_create_notebook : Bool) (now : Nat)
    (db : Db) (nb : UserNotebook) (resp : ChatResponse)
    (hget : dbGet db (make_user_key user_email main_category) = some nb)
    (hask : b.askResult = Except.ok resp)
    (hlang : preferred_language ≠ "en")
    (hwrong : is_language_correct li resp.answer preferred_language = false) :
    (ask_question b li tr incidentFails user_email main_category question
        preferred_language conversation_id auto_create_notebook now db).res =
      some { answer := translate_response tr resp.answer
               (if (detect_response_language li resp.answer).1 ≠ "unknown" then
                 (detect_response_language li resp.answer).1
               else "en") preferred_language,
             sources_used := [], conversation_id := respConv resp conversation_id,
             response_language := preferred_language, was_translated := true } ∧
    Event.incidentScheduled ∈
      (ask_question b li tr incidentFails user_email main_category question
        preferred_language conversation_id auto_create_notebook now db).events ∧
    (∀ i1 i2 : Bool,
      ask_question b li tr i1 user_email main_category question preferred_language
        conversation_id auto_create_notebook now db =
      ask_question b li tr i2 user_email main_category question preferred_language
        conversation_id auto_create_notebook now db) ∧
    (∀ t, tr = HttpOutcome.ok (some t) → t ≠ resp.answer →
      (if (detect_response_language li resp.answer).1 ≠ "unknown" then
        (detect_response_language li resp.answer).1
      else "en") ≠ preferred_language →
      Option.map AskQuestionResponse.answer
        (ask_question b li tr incidentFails user_email main_category question
          preferred_language conversation_id auto_create_notebook now db).res ≠
        some resp.answer) := by
  have hcore : ∀ i : Bool, ask_question b li tr i user_email main_category question
      preferred_language conversation_id auto_create_notebook now db =
      askCore b li tr (make_user_key user_email main_category) nb question
        preferred_language conversation_id db [] := by
    intro i
    simp [ask_question, hget]
  have hval : askCore b li tr (make_user_key user_email main_category) nb question
      preferred_language conversation_id db [] =
      ⟨some { answer := translate_response tr resp.answer
                (if (detect_response_language li resp.answer).1 ≠ "unknown" then
                  (detect_response_language li resp.answer).1
                else "en") preferred_language,
              sources_used := [], conversation_id := respConv resp conversation_id,
              response_language := preferred_language, was_translated := true },
        db, [Event.incidentScheduled]⟩ := by
    simp [askCore, hask, hlang, hwrong]
  refine ⟨?_, ?_, ?_, ?_⟩
  · rw [hcore incidentFails, hval]
  · rw [hcore incidentFails, hval]
    simp
  · intro i1 i2
    rw [hcore i1, hcore i2]
  · intro t htr hne hsrc
    rw [hcore incidentFails, hval]
    have hsrc' : (if (detect_response_language li resp.answer).1 = "unknown" then "en"
        else (detect_response_language li resp.answer).1) ≠ preferred_language := by
      by_cases hu : (detect_response_language li resp.answer).1 = "unknown" <;>
        simp [hu] at hsrc ⊢ <;> exact hsrc
    simpa [htr, translate_response] using ⟨hsrc', fun h => hne h⟩

/-- Witness for C1 amended: the stored mapping `exNb`, a confidently English
answer to a Spanish-language user, and a translation call that succeeds with a
different Spanish text. -/
theorem c1_translation_applied_witness :
    (dbGet exDb (make_user_key "u@example.com" "chess") = some exNb ∧
      exBackend.askResult = Except.ok exResp ∧
      ("es" : String) ≠ "en" ∧
      is_language_correct exLingua exResp.answer "es" = false) ∧
    ((ask_question exBackend exLingua (HttpOutcome.ok (some "Si senor, claro."))
        false "u@example.com" "chess" "q" "es" none true 4 exDb).res =
      some { answer := translate_response (HttpOutcome.ok (some "Si senor, claro."))
               exResp.answer
               (if (detect_response_language exLingua exResp.answer).1 ≠ "unknown" then
                 (detect_response_language exLingua exResp.answer).1
               else "en") "es",
             sources_used := [], conversation_id := respConv exResp none,
             response_language := "es", was_translated := true } ∧
    Event.incidentScheduled ∈
      (ask_question exBackend exLingua (HttpOutcome.ok (some "Si senor, claro."))
        false "u@example.com" "chess" "q" "es" none true 4 exDb).events ∧
    (∀ i1 i2 : Bool,
      ask_question exBackend exLingua (HttpOutcome.ok (some "Si senor, claro.")) i1
        "u@example.com" "chess" "q" "es" none true 4 exDb =
      ask_question exBackend exLingua (HttpOutcome.ok (some "Si senor, claro.")) i2
        "u@example.com" "chess" "q" "es" none true 4 exDb) ∧
    (∀ t, HttpOutcome.ok (some "Si senor, claro.") = HttpOutcome.ok (some t) →
      t ≠ exResp.answer →
      (if (detect_response_language exLingua exResp.answer).1 ≠ "unknown" then
        (detect_response_language exLingua exResp.answer).1
      else "en") ≠ "es" →
      Option.map AskQuestionResponse.answer
        (ask_question exBackend exLingua (HttpOutcome.ok (some "Si senor, claro."))
          false "u@example.com" "chess" "q" "es" none true 4 exDb).res ≠
        some exResp.answer)) :=
  ⟨⟨by decide, rfl, by decide, by decide⟩,
   c1_translation_applied exBackend exLingua (HttpOutcome.ok (some "Si senor, claro."))
     false "u@example.com" "chess" "q" "es" none true 4 exDb exNb exResp
     (by decide) rfl (by decide) (by decide)⟩

end NotebookLM
